import Mathlib

/-!
Verification of the `podpingd` object-storage writer (`src/writer/object_storage_writer.rs`,
`src/writer/writer.rs`, `src/main.rs`) against its natural-language specification.

The Rust code is shallowly embedded: the pure data flow (path construction, status-code
classification, watermark parsing) is translated directly; the effectful parts
(HTTP puts/gets, the tokio broadcast channel, `JoinSet` workers) are modelled by
explicit environments (functions giving each operation's outcome) and by event
traces recording, in the order the writer issues and awaits them, which
objects are put.  Machine integers (`u64`, `u32`, `i32`) are modelled as
`Nat`/`Int`; the only place where the width matters is `u64::from_str` in
`get_last_block`, where the `2 ^ 64` bound is explicit.
-/

/- ### Data model (`HiveBlockWithNum`, `Podping`)

`Podping` is the tagged value from the external `podping_schemas` crate; its
payloads are black boxes for the writer (it only serializes them), modelled as
opaque strings.  `V11` additionally exposes `session_id` (rendered by
`to_string`) and `timestamp_ns` (`u64`), which the writer uses for file names. -/

inductive Podping where
  | V0 (payload : String)
  | V02 (payload : String)
  | V03 (payload : String)
  | V10 (payload : String)
  | V11 (payload : String) (session_id : String) (timestamp_ns : Nat)
  deriving DecidableEq

/-- One transaction of a block: its hex id and the podpings decoded from it. -/
structure BlockTransaction where
  tx_id : String
  podpings : List Podping
  deriving DecidableEq

/-- A UTC calendar instant with second precision, as exposed by the chrono
`Datelike`/`Timelike` accessors used in the writer (`year` is `i32`, the rest
are `u32`). -/
structure Timestamp where
  year : Int
  month : Nat
  day : Nat
  hour : Nat
  minute : Nat
  second : Nat
  deriving DecidableEq

/-- `HiveBlockWithNum` from `hive::scanner`: block number (`u64`), timestamp,
and the transactions containing podpings. -/
structure HiveBlockWithNum where
  block_num : Nat
  timestamp : Timestamp
  transactions : List BlockTransaction
  deriving DecidableEq

/-- `LAST_UPDATED_BLOCK_FILENAME` from `src/writer/writer.rs`. -/
def LAST_UPDATED_BLOCK_FILENAME : String := "last_updated_block"

/- ### HTTP status-code classification

`head_bucket`, `get_object` and `put_object` in `object_storage_writer.rs`
send one HTTP request and classify the response status.  The network is
modelled by the argument: `none` is a failed `send()` (reqwest error), and
`some status` a response with that status code. -/

inductive HeadBucketError where
  | NotFound
  | AccessDenied
  | BadRequest
  | UnknownError
  deriving DecidableEq

inductive GetObjectError where
  | NotFound
  | AccessDenied
  | BadRequest
  | UnknownError
  deriving DecidableEq

/-- `PutObjectError` from the source: unlike the other two enums it has no
`NotFound` variant. -/
inductive PutObjectError where
  | AccessDenied
  | BadRequest
  | UnknownError
  deriving DecidableEq

/-- Status handling of `head_bucket` (object_storage_writer.rs lines 55-71). -/
def head_bucket_response (send : Option Nat) : Except HeadBucketError Unit :=
  match send with
  | none => Except.error HeadBucketError.UnknownError
  | some status =>
    if status = 200 then Except.ok ()
    else if status = 404 then Except.error HeadBucketError.NotFound
    else if status = 403 then Except.error HeadBucketError.AccessDenied
    else if status = 400 then Except.error HeadBucketError.BadRequest
    else Except.error HeadBucketError.UnknownError

/-- Status handling of `get_object` (object_storage_writer.rs lines 97-117). -/
def get_object_response (send : Option Nat) : Except GetObjectError Unit :=
  match send with
  | none => Except.error GetObjectError.UnknownError
  | some status =>
    if status = 200 then Except.ok ()
    else if status = 404 then Except.error GetObjectError.NotFound
    else if status = 403 then Except.error GetObjectError.AccessDenied
    else if status = 400 then Except.error GetObjectError.BadRequest
    else Except.error GetObjectError.UnknownError

/-- Status handling of `put_object` (object_storage_writer.rs lines 147-173):
`200` is ok, `403` AccessDenied, `400` BadRequest, and every other status —
including `404` — falls through to `UnknownError`. -/
def put_object_response (send : Option Nat) : Except PutObjectError Unit :=
  match send with
  | none => Except.error PutObjectError.UnknownError
  | some status =>
    if status = 200 then Except.ok ()
    else if status = 403 then Except.error PutObjectError.AccessDenied
    else if status = 400 then Except.error PutObjectError.BadRequest
    else Except.error PutObjectError.UnknownError

/-- Common classification of the three operations' outcomes, so that their
status mappings can be compared with one another and with the spec. -/
inductive StatusClass where
  | ok
  | notFound
  | accessDenied
  | badRequest
  | unknownError
  deriving DecidableEq

def headBucketClass : Except HeadBucketError Unit → StatusClass
  | Except.ok _ => StatusClass.ok
  | Except.error HeadBucketError.NotFound => StatusClass.notFound
  | Except.error HeadBucketError.AccessDenied => StatusClass.accessDenied
  | Except.error HeadBucketError.BadRequest => StatusClass.badRequest
  | Except.error HeadBucketError.UnknownError => StatusClass.unknownError

def getObjectClass : Except GetObjectError Unit → StatusClass
  | Except.ok _ => StatusClass.ok
  | Except.error GetObjectError.NotFound => StatusClass.notFound
  | Except.error GetObjectError.AccessDenied => StatusClass.accessDenied
  | Except.error GetObjectError.BadRequest => StatusClass.badRequest
  | Except.error GetObjectError.UnknownError => StatusClass.unknownError

def putObjectClass : Except PutObjectError Unit → StatusClass
  | Except.ok _ => StatusClass.ok
  | Except.error PutObjectError.AccessDenied => StatusClass.accessDenied
  | Except.error PutObjectError.BadRequest => StatusClass.badRequest
  | Except.error PutObjectError.UnknownError => StatusClass.unknownError

/-- The status mapping as the spec words it ("`200` → ok; `404` → NotFound;
`403` → AccessDenied; `400` → BadRequest; else → UnknownError"), used as the
refinement target for the per-operation mappings above. -/
def specStatusMap (status : Nat) : StatusClass :=
  if status = 200 then StatusClass.ok
  else if status = 404 then StatusClass.notFound
  else if status = 403 then StatusClass.accessDenied
  else if status = 400 then StatusClass.badRequest
  else StatusClass.unknownError

/- ### Watermark contents: decimal rendering, Rust `str::trim` and `u64::from_str` -/

/-- One decimal digit as an ASCII character, as produced by `u64::to_string`. -/
def digitChar (d : Nat) : Char :=
  match d with
  | 0 => '0'
  | 1 => '1'
  | 2 => '2'
  | 3 => '3'
  | 4 => '4'
  | 5 => '5'
  | 6 => '6'
  | 7 => '7'
  | 8 => '8'
  | 9 => '9'
  | _ => '*'

/-- The ASCII decimal rendering of `n`, i.e. the characters of
`u64::to_string` (most significant digit first, `0` rendered as `"0"`). -/
def natDecimalChars (n : Nat) : List Char :=
  if n = 0 then ['0'] else (Nat.digits 10 n).reverse.map digitChar

/-- Rust `char::is_whitespace`: the Unicode `White_Space` property, by code
point. -/
def isRustWhitespace (c : Char) : Bool :=
  let n := c.toNat
  (9 ≤ n && n ≤ 13) || n == 32 || n == 133 || n == 160 || n == 5760 ||
    (8192 ≤ n && n ≤ 8202) || n == 8232 || n == 8233 || n == 8239 ||
    n == 8287 || n == 12288

/-- Rust `str::trim`: remove leading and trailing whitespace. -/
def rustTrim (s : List Char) : List Char :=
  ((s.dropWhile isRustWhitespace).reverse.dropWhile isRustWhitespace).reverse

/-- Accumulating digit loop of `u64::from_str`: fails on the first non-digit
character. -/
def parseDigitsAux : List Char → Nat → Option Nat
  | [], acc => some acc
  | c :: rest, acc =>
    if c.isDigit then parseDigitsAux rest (acc * 10 + (c.toNat - 48)) else none

/-- Digits of `u64::from_str` after the optional sign: at least one ASCII
digit is required. -/
def parseDigits : List Char → Option Nat
  | [] => none
  | c :: rest => parseDigitsAux (c :: rest) 0

/-- The optional leading `'+'` sign accepted by `u64::from_str`. -/
def rustStripSign : List Char → List Char
  | c :: rest => if c = '+' then rest else c :: rest
  | [] => []

/-- Rust `u64::from_str` / `str::parse::<u64>()`: an optional leading `'+'`,
then one or more ASCII digits, with overflow (value `≥ 2 ^ 64`) an error. -/
def rustParseU64 (s : List Char) : Option Nat :=
  match parseDigits (rustStripSign s) with
  | some n => if n < 2 ^ 64 then some n else none
  | none => none

/-- `ObjectStorageWriter::get_last_block` (object_storage_writer.rs lines
341-356).  The fetch of the `last_updated_block` object is modelled by its
outcome: `Except.error e` is `get_object` failing with `e`; `Except.ok
(Except.error ())` is a 200 response whose body fails to decode as text;
`Except.ok (Except.ok body)` is a 200 response with `body` as text. -/
def get_last_block (fetch : Except GetObjectError (Except Unit (List Char))) :
    Except GetObjectError (Option Nat) :=
  match fetch with
  | Except.ok (Except.ok body) =>
    match rustParseU64 (rustTrim body) with
    | some block => Except.ok (some block)
    | none => Except.ok none
  | Except.ok (Except.error _) => Except.ok none
  | Except.error GetObjectError.NotFound => Except.ok none
  | Except.error e => Except.error e

/- ### Object paths -/

/-- The per-block directory path (object_storage_writer.rs lines 185-191):
`PathBuf::new()` joined with the decimal renderings of year, month, day,
hour, minute, second of the block timestamp. -/
def currentBlockPath (ts : Timestamp) : List String :=
  [toString ts.year, toString ts.month, toString ts.day,
   toString ts.hour, toString ts.minute, toString ts.second]

/-- The podping file name (object_storage_writer.rs lines 197-209): for
`V0`/`V02`/`V03`/`V10` the enumerate index `i` is used, for `V11` the
session id and nanosecond timestamp. -/
def podpingFilename (blockNum : Nat) (txId : String) (i : Nat) : Podping → String
  | Podping.V0 _ | Podping.V02 _ | Podping.V03 _ | Podping.V10 _ =>
    toString blockNum ++ "_" ++ txId ++ "_" ++ toString i ++ ".json"
  | Podping.V11 _ sid tns =>
    toString blockNum ++ "_" ++ txId ++ "_" ++ sid ++ "_" ++ toString tns ++ ".json"

/-- Full relative path of one podping object: the block directory joined with
the file name. -/
def podpingFile (blockNum : Nat) (ts : Timestamp) (txId : String) (i : Nat)
    (pp : Podping) : List String :=
  currentBlockPath ts ++ [podpingFilename blockNum txId i pp]

/-- Rendering of a relative `PathBuf` built by successive `join`s of non-empty
components: components separated by `'/'` (this is what `to_string_lossy`
yields and what the S3 object key is). -/
def pathRender : List String → String
  | [] => ""
  | [c] => c
  | c :: rest => c ++ "/" ++ pathRender rest

/- ### Event traces of the writer

The effect of the writer on object storage is recorded as a list of events in
the order the writer issues and awaits them: `putPodping path body` for one
podping object put (spawned into the `JoinSet` and awaited by `join_all`
before anything later in the list is issued) and `putWatermark n` for the
`last_updated_block` put with body `n.to_string()`. -/

inductive Event where
  | putPodping (path : List String) (body : String)
  | putWatermark (blockNum : Nat)
  deriving DecidableEq

def Event.isPodpingPut : Event → Bool
  | Event.putPodping _ _ => true
  | Event.putWatermark _ => false

def Event.isWatermarkPut : Event → Bool
  | Event.putPodping _ _ => false
  | Event.putWatermark _ => true

/-- The podping put events spawned for one transaction of a block
(object_storage_writer.rs lines 195-243): each podping is serialized with
`serde_json::to_string` (outcome given by the `serialize` environment); on
success a `put_object` is spawned for the variant-specific path, on failure
the podping is logged and skipped. -/
def txEvents (serialize : Podping → Except String String) (blockNum : Nat)
    (ts : Timestamp) (tx : BlockTransaction) : List Event :=
  tx.podpings.enum.filterMap fun ip =>
    match serialize ip.2 with
    | Except.ok json =>
      some (Event.putPodping (podpingFile blockNum ts tx.tx_id ip.1 ip.2) json)
    | Except.error _ => none

/-- `object_storage_write_block_transactions` (object_storage_writer.rs lines
176-248).  `putResult` gives the outcome of each spawned `put_object`; the
results collected by `join_all` are discarded by the source, so the returned
value is `Ok(())` on both branches.  The first component is the trace of put
events issued for the block. -/
def object_storage_write_block_transactions
    (serialize : Podping → Except String String)
    (putResult : List String → Except PutObjectError Unit)
    (block : HiveBlockWithNum) : List Event × Except PutObjectError Unit :=
  if block.transactions.isEmpty then
    ([], Except.ok ())
  else
    let events :=
      (block.transactions.map (txEvents serialize block.block_num block.timestamp)).flatten
    let _joined := events.map fun e =>
      match e with
      | Event.putPodping path _ => putResult path
      | Event.putWatermark _ => Except.ok ()
    (events, Except.ok ())

/-- `object_storage_write_last_block` (object_storage_writer.rs lines
250-270): one `put_object` of `block_num.to_string()` to
`LAST_UPDATED_BLOCK_FILENAME`, with outcome given by the `wm` environment. -/
def object_storage_write_last_block (wm : Nat → Except PutObjectError Unit)
    (blockNum : Nat) : Event × Except PutObjectError Unit :=
  (Event.putWatermark blockNum, wm blockNum)

/-- The body of `ObjectStorageWriter::start` for one received block
(object_storage_writer.rs lines 374-386): write the block's podpings, then —
the `?` on the first call never fires since it always returns `Ok` — write
the watermark. -/
def handleBlock (serialize : Podping → Except String String)
    (putResult : List String → Except PutObjectError Unit)
    (wm : Nat → Except PutObjectError Unit)
    (block : HiveBlockWithNum) : List Event × Except PutObjectError Unit :=
  match object_storage_write_block_transactions serialize putResult block with
  | (events, Except.error e) => (events, Except.error e)
  | (events, Except.ok _) =>
    match object_storage_write_last_block wm block.block_num with
    | (wmEvent, wmResult) => (events ++ [wmEvent], wmResult)

/-- The body of `ObjectStorageWriter::start_batch` for one received batch
(object_storage_writer.rs lines 406-425): `blocks.last().unwrap()` — a panic
on an empty batch — then all blocks' podping writes spawned concurrently and
joined, then one watermark put with the *last* block's number. -/
inductive BatchOutcome where
  | panicked
  | errored (e : PutObjectError)
  | ok
  deriving DecidableEq

def handleBatch (serialize : Podping → Except String String)
    (putResult : List String → Except PutObjectError Unit)
    (wm : Nat → Except PutObjectError Unit)
    (blocks : List HiveBlockWithNum) : List Event × BatchOutcome :=
  match blocks.getLast? with
  | none => ([], BatchOutcome.panicked)
  | some lastBlock =>
    let events :=
      (blocks.map fun b =>
        (object_storage_write_block_transactions serialize putResult b).1).flatten
    match object_storage_write_last_block wm lastBlock.block_num with
    | (wmEvent, Except.error e) => (events ++ [wmEvent], BatchOutcome.errored e)
    | (wmEvent, Except.ok _) => (events ++ [wmEvent], BatchOutcome.ok)

/- ### The writer loops over the broadcast channel -/

/-- Outcome of one `rx.recv().await` on the tokio broadcast channel. -/
inductive RecvResult (α : Type) where
  | ok (value : α)
  | lagged (skipped : Nat)
  | closed

/-- How a (finite prefix of a) run of `ObjectStorageWriter::start` ends:
`panicked` by the `RecvError::Closed` arm, `errored e` by `?` on a failed
watermark put, or `stillRunning` when the prefix of channel outcomes is
exhausted without leaving the loop. -/
inductive StreamStop where
  | panicked
  | errored (e : PutObjectError)
  | stillRunning
  deriving DecidableEq

/-- `ObjectStorageWriter::start` (object_storage_writer.rs lines 358-390) run
over a finite prefix of channel receive outcomes: `Lagged` logs and
continues, `Closed` panics, a received block is handled by `handleBlock`. -/
def runStart (serialize : Podping → Except String String)
    (putResult : List String → Except PutObjectError Unit)
    (wm : Nat → Except PutObjectError Unit) :
    List (RecvResult HiveBlockWithNum) → List Event × StreamStop
  | [] => ([], StreamStop.stillRunning)
  | RecvResult.closed :: _ => ([], StreamStop.panicked)
  | RecvResult.lagged _ :: rest => runStart serialize putResult wm rest
  | RecvResult.ok block :: rest =>
    match handleBlock serialize putResult wm block with
    | (events, Except.error e) => (events, StreamStop.errored e)
    | (events, Except.ok _) =>
      match runStart serialize putResult wm rest with
      | (more, stop) => (events ++ more, stop)

/-- How a run of `ObjectStorageWriter::start_batch` ends: `doneOk` is the
`break` on `RecvError::Closed` followed by `Ok(())`. -/
inductive BatchStop where
  | panicked
  | errored (e : PutObjectError)
  | doneOk
  | stillRunning
  deriving DecidableEq

/-- `ObjectStorageWriter::start_batch` (object_storage_writer.rs lines
392-429) run over a finite prefix of channel receive outcomes. -/
def runBatch (serialize : Podping → Except String String)
    (putResult : List String → Except PutObjectError Unit)
    (wm : Nat → Except PutObjectError Unit) :
    List (RecvResult (List HiveBlockWithNum)) → List Event × BatchStop
  | [] => ([], BatchStop.stillRunning)
  | RecvResult.closed :: _ => ([], BatchStop.doneOk)
  | RecvResult.lagged _ :: rest => runBatch serialize putResult wm rest
  | RecvResult.ok blocks :: rest =>
    match handleBatch serialize putResult wm blocks with
    | (events, BatchOutcome.panicked) => (events, BatchStop.panicked)
    | (events, BatchOutcome.errored e) => (events, BatchStop.errored e)
    | (events, BatchOutcome.ok) =>
      match runBatch serialize putResult wm rest with
      | (more, stop) => (events ++ more, stop)

/- ### `main` (src/main.rs lines 51-154) -/

inductive WriterType where
  | Disk
  | ObjectStorage
  deriving DecidableEq

/-- The configuration fields of `settings.writer` that `main` branches on. -/
structure WriterSettings where
  enabled : Bool
  type_ : Option WriterType
  deriving DecidableEq

/-- Possible outcomes of awaiting `syncer.start()`: it either never completes
(diverges) or completes with `Ok`/`Err` (the error payload is irrelevant to
control flow and modelled as `Unit`). -/
inductive SyncerOutcome where
  | diverges
  | returned (r : Except Unit Unit)

/-- How an execution of `main` comes out: `panicked` by the
`Writer Type not set correctly!` panic, `errReturn` via a `?`, `diverged`
because an awaited future never completes, or `enteredPostLoop` — control
reached line 122 of main.rs, the dead-demo loop that POSTs to
`http://example.com/api/podping`. -/
inductive MainResult where
  | panicked
  | errReturn
  | diverged
  | enteredPostLoop
  deriving DecidableEq

/-- Control flow of `main` after one of the three syncer branches starts:
`syncer.start().await?` either diverges, early-returns the error, or on `Ok`
falls through to the POST loop. -/
def afterSyncerStart : SyncerOutcome → MainResult
  | SyncerOutcome.diverges => MainResult.diverged
  | SyncerOutcome.returned (Except.error _) => MainResult.errReturn
  | SyncerOutcome.returned (Except.ok _) => MainResult.enteredPostLoop

/-- Control flow of `main` (src/main.rs lines 82-149): the match on
`settings.writer.enabled` and `settings.writer.type_` selects a writer and
runs its syncer; every non-panicking branch then falls through to the code
after the match. -/
def mainRun (w : WriterSettings) (sync : SyncerOutcome) : MainResult :=
  match w.enabled, w.type_ with
  | true, some _ => afterSyncerStart sync
  | true, none => MainResult.panicked
  | false, _ => afterSyncerStart sync

/-- Modelled from the spec: the outcome of `Syncer::start` (`src/syncer.rs`
is not among the given sources; only its caller `main` is).  Per the spec the
Scanner "has no terminal state; it runs until its task is cancelled by the
Syncer", the Syncer "creates the bounded broadcast channel, subscribes the
writer, starts the Scanner task, and awaits the writer", and exit code 0
(clean shutdown) is "not reachable in v1" — so awaiting `syncer.start()`
either never completes or completes with an error, never with `Ok`. -/
def SyncerStartSpec (o : SyncerOutcome) : Prop :=
  o = SyncerOutcome.diverges ∨ o = SyncerOutcome.returned (Except.error ())

/- ### Concrete sample data used by counterexamples and witnesses -/

def demoTimestamp : Timestamp :=
  ⟨2024, 1, 1, 0, 0, 0⟩

/-- A batch whose last block is not its highest-numbered block. -/
def demoBatch : List HiveBlockWithNum :=
  [⟨5, demoTimestamp, []⟩, ⟨3, demoTimestamp, []⟩]

/-- An always-succeeding serialization environment. -/
def demoSerialize : Podping → Except String String := fun _ => Except.ok "json"

/-- A one-block batch with a single podping, for concrete instantiations. -/
def demoBlock7 : HiveBlockWithNum :=
  ⟨7, demoTimestamp, [⟨"aa", [Podping.V0 "p"]⟩]⟩

/-- An always-succeeding put environment. -/
def demoPutResult : List String → Except PutObjectError Unit := fun _ => Except.ok ()

/-- An always-succeeding watermark-put environment. -/
def demoWm : Nat → Except PutObjectError Unit := fun _ => Except.ok ()

/- ### Helper lemmas -/

/-- `object_storage_write_block_transactions` returns `Ok(())` on both
branches: the outcomes collected by `join_all` are discarded. -/
theorem writeBlock_snd (serialize : Podping → Except String String)
    (putResult : List String → Except PutObjectError Unit)
    (block : HiveBlockWithNum) :
    (object_storage_write_block_transactions serialize putResult block).2
      = Except.ok () := by
  unfold object_storage_write_block_transactions
  split <;> rfl

/-- Every event issued by `object_storage_write_block_transactions` is a
podping put (the watermark put is issued by the caller, afterwards). -/
theorem writeBlock_events_podping (serialize : Podping → Except String String)
    (putResult : List String → Except PutObjectError Unit)
    (block : HiveBlockWithNum) :
    ∀ e ∈ (object_storage_write_block_transactions serialize putResult block).1,
      e.isPodpingPut = true := by
  intro e he
  simp only [object_storage_write_block_transactions] at he
  split at he
  · simp at he
  · simp only [List.mem_flatten, List.mem_map] at he
    obtain ⟨l, ⟨tx, htx, rfl⟩, hel⟩ := he
    simp only [txEvents, List.mem_filterMap] at hel
    obtain ⟨ip, hip, hmatch⟩ := hel
    cases hs : serialize ip.2 with
    | ok j =>
      rw [hs] at hmatch
      cases hmatch
      rfl
    | error msg =>
      rw [hs] at hmatch
      cases hmatch

/-- The trace of `handleBlock`: the block's podping puts followed by exactly
one watermark put carrying the block's number. -/
theorem handleBlock_events (serialize : Podping → Except String String)
    (putResult : List String → Except PutObjectError Unit)
    (wm : Nat → Except PutObjectError Unit) (block : HiveBlockWithNum) :
    (handleBlock serialize putResult wm block).1
      = (object_storage_write_block_transactions serialize putResult block).1
        ++ [Event.putWatermark block.block_num] := by
  have hx : object_storage_write_block_transactions serialize putResult block
      = ((object_storage_write_block_transactions serialize putResult block).1,
         Except.ok ()) := by
    rw [← writeBlock_snd serialize putResult block]
  unfold handleBlock
  rw [hx]
  rfl

/-- The trace of `handleBatch` on a non-empty batch: all blocks' podping puts
followed by exactly one watermark put carrying the *last* block's number. -/
theorem handleBatch_events (serialize : Podping → Except String String)
    (putResult : List String → Except PutObjectError Unit)
    (wm : Nat → Except PutObjectError Unit)
    (b : HiveBlockWithNum) (bs : List HiveBlockWithNum) :
    (handleBatch serialize putResult wm (b :: bs)).1
      = ((b :: bs).map fun blk =>
          (object_storage_write_block_transactions serialize putResult blk).1).flatten
        ++ [Event.putWatermark (bs.getLast?.getD b).block_num] := by
  unfold handleBatch
  rw [List.getLast?_cons]
  cases hw : wm (bs.getLast?.getD b).block_num <;>
    simp [object_storage_write_last_block, hw]

/- ### Claim theorems -/

/-- C2 (counterexample): the claim "for every object-storage operation the
HTTP status 404 is mapped to NotFound" is false for `put_object`: a 404
response to a put is classified `UnknownError` (the `PutObjectError` enum has
no `NotFound` variant), while the claimed mapping sends 404 to NotFound. -/
theorem C2_put_404_counterexample :
    putObjectClass (put_object_response (some 404)) = StatusClass.unknownError ∧
    specStatusMap 404 = StatusClass.notFound ∧
    StatusClass.unknownError ≠ StatusClass.notFound := by
  decide

/-- C2 (amended): `head_bucket` and `get_object` map the response status
exactly as the spec states (200 → ok, 404 → NotFound, 403 → AccessDenied,
400 → BadRequest, else → UnknownError); `put_object` follows the same
mapping except that 404 falls into the UnknownError catch-all. -/
theorem C2_status_mapping_amended (status : Nat) :
    headBucketClass (head_bucket_response (some status)) = specStatusMap status ∧
    getObjectClass (get_object_response (some status)) = specStatusMap status ∧
    putObjectClass (put_object_response (some status)) =
      (if status = 404 then StatusClass.unknownError else specStatusMap status) := by
  by_cases h200 : status = 200
  · subst h200; decide
  by_cases h404 : status = 404
  · subst h404; decide
  by_cases h403 : status = 403
  · subst h403; decide
  by_cases h400 : status = 400
  · subst h400; decide
  simp [head_bucket_response, get_object_response, put_object_response, specStatusMap,
    h200, h404, h403, h400, headBucketClass, getObjectClass, putObjectClass]

/-- C4: the outbound HTTP POST to `http://example.com/api/podping` in `main`
is never executed.  Control can only reach the POST loop (after the match on
the writer settings) when `syncer.start().await?` completes with `Ok`, and by
the spec-modelled behaviour of `Syncer::start` that never happens: on every
writer branch and for every syncer outcome allowed by the spec, `main` ends
panicked, with an error return, or diverging — never in the POST loop. -/
theorem C4_post_unreachable (w : WriterSettings) (o : SyncerOutcome)
    (h : SyncerStartSpec o) : mainRun w o ≠ MainResult.enteredPostLoop := by
  obtain ⟨enabled, type_⟩ := w
  rcases h with h | h <;> subst h <;> cases enabled <;> cases type_ <;>
    simp [mainRun, afterSyncerStart]

/-- C4 (witness): with the object-storage writer enabled and the syncer
diverging (its specified behaviour), the POST loop is not entered. -/
theorem C4_post_unreachable_witness :
    SyncerStartSpec SyncerOutcome.diverges ∧
    mainRun ⟨true, some WriterType.ObjectStorage⟩ SyncerOutcome.diverges
      ≠ MainResult.enteredPostLoop :=
  ⟨Or.inl rfl,
   C4_post_unreachable ⟨true, some WriterType.ObjectStorage⟩ SyncerOutcome.diverges
     (Or.inl rfl)⟩

/-- C6: on a closed broadcast channel the streaming `start` panics
(`panic!("Object Storage writer channel closed")`), while the batched
`start_batch` breaks out of its loop and returns `Ok(())` — clean
shutdown — whatever the environments and whatever would have followed on
the channel. -/
theorem C6_closed_channel (serialize : Podping → Except String String)
    (putResult : List String → Except PutObjectError Unit)
    (wm : Nat → Except PutObjectError Unit)
    (restS : List (RecvResult HiveBlockWithNum))
    (restB : List (RecvResult (List HiveBlockWithNum))) :
    runStart serialize putResult wm (RecvResult.closed :: restS)
      = ([], StreamStop.panicked) ∧
    runBatch serialize putResult wm (RecvResult.closed :: restB)
      = ([], BatchStop.doneOk) :=
  ⟨rfl, rfl⟩

/-- C8: individual podping put failures (and serialization failures) never
fail the writer: `object_storage_write_block_transactions` returns `Ok(())`
for every block under every serialization and put-outcome environment, and
consequently the subsequent watermark put for the block is still issued (it
is the final event of the block's trace). -/
theorem C8_put_failures_swallowed (serialize : Podping → Except String String)
    (putResult : List String → Except PutObjectError Unit)
    (wm : Nat → Except PutObjectError Unit) (block : HiveBlockWithNum) :
    (object_storage_write_block_transactions serialize putResult block).2
      = Except.ok () ∧
    (handleBlock serialize putResult wm block).1.getLast?
      = some (Event.putWatermark block.block_num) := by
  refine ⟨writeBlock_snd serialize putResult block, ?_⟩
  rw [handleBlock_events, List.getLast?_concat]

/-- C9: a block with no transactions produces no podping put, yet the
watermark put with that block's number is still issued by the streaming
writer. -/
theorem C9_empty_block_advances_watermark (serialize : Podping → Except String String)
    (putResult : List String → Except PutObjectError Unit)
    (wm : Nat → Except PutObjectError Unit) (n : Nat) (ts : Timestamp) :
    (object_storage_write_block_transactions serialize putResult ⟨n, ts, []⟩).1 = [] ∧
    (handleBlock serialize putResult wm ⟨n, ts, []⟩).1 = [Event.putWatermark n] := by
  constructor
  · rfl
  · rw [handleBlock_events]
    rfl

/-- C10: `start_batch` requires non-empty batches: receiving an empty vector
of blocks hits `blocks.last().unwrap()` and panics, issuing no put at all,
instead of returning an error or skipping the batch. -/
theorem C10_empty_batch_panics (serialize : Podping → Except String String)
    (putResult : List String → Except PutObjectError Unit)
    (wm : Nat → Except PutObjectError Unit)
    (rest : List (RecvResult (List HiveBlockWithNum))) :
    handleBatch serialize putResult wm [] = ([], BatchOutcome.panicked) ∧
    runBatch serialize putResult wm (RecvResult.ok [] :: rest)
      = ([], BatchStop.panicked) :=
  ⟨rfl, rfl⟩

/-- A podping put is not a watermark put. -/
theorem podping_not_watermark (e : Event) (h : e.isPodpingPut = true) :
    e.isWatermarkPut = false := by
  cases e <;> simp_all [Event.isPodpingPut, Event.isWatermarkPut]

/-- All events issued for the blocks of a batch (before the watermark) are
podping puts. -/
theorem batchEvents_podping (serialize : Podping → Except String String)
    (putResult : List String → Except PutObjectError Unit)
    (blocks : List HiveBlockWithNum) :
    ∀ e ∈ (blocks.map fun blk =>
        (object_storage_write_block_transactions serialize putResult blk).1).flatten,
      e.isPodpingPut = true := by
  intro e he
  rw [List.mem_flatten] at he
  obtain ⟨l, hl, hel⟩ := he
  rw [List.mem_map] at hl
  obtain ⟨blk, hblk, rfl⟩ := hl
  exact writeBlock_events_podping serialize putResult blk e hel

/-- C5: the watermark put strictly follows all podping puts.  For every block
handled by the streaming writer, and for every non-empty batch handled by the
batched writer, the trace of issued operations consists of podping puts only,
followed by the single watermark put as the final element (the watermark
`put_object` is only issued after `join_all` over the podping puts has
returned). -/
theorem C5_watermark_after_podping_puts (serialize : Podping → Except String String)
    (putResult : List String → Except PutObjectError Unit)
    (wm : Nat → Except PutObjectError Unit) :
    (∀ block : HiveBlockWithNum,
      (handleBlock serialize putResult wm block).1.dropLast.all Event.isPodpingPut
        = true ∧
      (handleBlock serialize putResult wm block).1.getLast?
        = some (Event.putWatermark block.block_num)) ∧
    (∀ (b : HiveBlockWithNum) (bs : List HiveBlockWithNum),
      (handleBatch serialize putResult wm (b :: bs)).1.dropLast.all Event.isPodpingPut
        = true ∧
      (handleBatch serialize putResult wm (b :: bs)).1.getLast?
        = some (Event.putWatermark (bs.getLast?.getD b).block_num)) := by
  constructor
  · intro block
    rw [handleBlock_events, List.dropLast_concat, List.getLast?_concat]
    exact ⟨List.all_eq_true.mpr (writeBlock_events_podping serialize putResult block),
      rfl⟩
  · intro b bs
    rw [handleBatch_events, List.dropLast_concat, List.getLast?_concat]
    exact ⟨List.all_eq_true.mpr (batchEvents_podping serialize putResult (b :: bs)),
      rfl⟩

/-- C1 (counterexample): the watermark value for a batch is the *last* block's
number, not the highest.  For the batch `[block 5, block 3]` (both without
podpings) the only put issued is a watermark put of 3, although the batch
contains the higher block number 5. -/
theorem C1_last_not_highest_counterexample :
    (handleBatch demoSerialize demoPutResult demoWm demoBatch).1
      = [Event.putWatermark 3] ∧
    5 ∈ demoBatch.map HiveBlockWithNum.block_num ∧
    (3 : Nat) < 5 := by
  decide

/-- C1 (amended): for every non-empty batch received by `start_batch`, the
trace is all blocks' podping puts (every put issued for any block of the
batch is in the trace) followed by exactly one watermark update, whose value
is the block number of the *last* block of the batch. -/
theorem C1_batch_writes_then_last_watermark (serialize : Podping → Except String String)
    (putResult : List String → Except PutObjectError Unit)
    (wm : Nat → Except PutObjectError Unit)
    (b : HiveBlockWithNum) (bs : List HiveBlockWithNum) :
    (handleBatch serialize putResult wm (b :: bs)).1
      = ((b :: bs).map fun blk =>
          (object_storage_write_block_transactions serialize putResult blk).1).flatten
        ++ [Event.putWatermark (bs.getLast?.getD b).block_num] ∧
    (handleBatch serialize putResult wm (b :: bs)).1.filter Event.isWatermarkPut
      = [Event.putWatermark (bs.getLast?.getD b).block_num] ∧
    ∀ blk ∈ b :: bs,
      ∀ e ∈ (object_storage_write_block_transactions serialize putResult blk).1,
        e ∈ (handleBatch serialize putResult wm (b :: bs)).1 := by
  refine ⟨handleBatch_events serialize putResult wm b bs, ?_, ?_⟩
  · rw [handleBatch_events, List.filter_append]
    have h1 : ((b :: bs).map fun blk =>
        (object_storage_write_block_transactions serialize putResult blk).1).flatten.filter
          Event.isWatermarkPut = [] := by
      rw [List.filter_eq_nil_iff]
      intro e he
      have := podping_not_watermark e (batchEvents_podping serialize putResult (b :: bs) e he)
      simp [this]
    rw [h1]
    rfl
  · intro blk hblk e he
    rw [handleBatch_events]
    apply List.mem_append_left
    rw [List.mem_flatten]
    exact ⟨_, List.mem_map.mpr ⟨blk, hblk, rfl⟩, he⟩

/-- C1 (witness): for the concrete one-block batch `[demoBlock7]`, the podping
put of its single podping occurs in the batch trace. -/
theorem C1_batch_witness :
    Event.putPodping (podpingFile 7 demoTimestamp "aa" 0 (Podping.V0 "p")) "json"
      ∈ (handleBatch demoSerialize demoPutResult demoWm [demoBlock7]).1 :=
  (C1_batch_writes_then_last_watermark demoSerialize demoPutResult demoWm
      demoBlock7 []).2.2 demoBlock7 (by decide)
    (Event.putPodping (podpingFile 7 demoTimestamp "aa" 0 (Podping.V0 "p")) "json")
    (by decide)

/- ### Decimal round-trip lemmas for the watermark -/

/-- Every character of the decimal rendering is an ASCII digit, hence neither
whitespace nor a sign. -/
theorem natDecimalChars_props (n : Nat) :
    ∀ c ∈ natDecimalChars n,
      c.isDigit = true ∧ isRustWhitespace c = false ∧ c ≠ '+' := by
  intro c hc
  unfold natDecimalChars at hc
  split at hc
  · simp only [List.mem_singleton] at hc
    subst hc
    decide
  · rw [List.mem_map] at hc
    obtain ⟨d, hd, rfl⟩ := hc
    rw [List.mem_reverse] at hd
    have hlt : d < 10 := Nat.digits_lt_base (by norm_num) hd
    interval_cases d <;> decide

theorem natDecimalChars_ne_nil (n : Nat) : natDecimalChars n ≠ [] := by
  by_cases h : n = 0
  · subst h; decide
  · unfold natDecimalChars
    rw [if_neg h]
    simp [Nat.digits_ne_nil_iff_ne_zero, h]

theorem dropWhile_of_all_false {α : Type} (p : α → Bool) (l : List α)
    (h : ∀ c ∈ l, p c = false) : l.dropWhile p = l := by
  cases l with
  | nil => rfl
  | cons a t => simp [List.dropWhile_cons, h a (List.mem_cons_self a t)]

theorem dropWhile_of_all_true {α : Type} (p : α → Bool) (l : List α)
    (h : ∀ c ∈ l, p c = true) : l.dropWhile p = [] := by
  induction l with
  | nil => rfl
  | cons a t ih =>
    rw [List.dropWhile_cons, if_pos]
    · exact ih fun c hc => h c (List.mem_cons_of_mem a hc)
    · simp [h a (List.mem_cons_self a t)]

/-- `str::trim` on non-whitespace content followed by whitespace recovers the
content. -/
theorem rustTrim_append_ws (l ws : List Char)
    (hl : ∀ c ∈ l, isRustWhitespace c = false) (hne : l ≠ [])
    (hws : ∀ c ∈ ws, isRustWhitespace c = true) :
    rustTrim (l ++ ws) = l := by
  obtain ⟨hd, tl, rfl⟩ := List.exists_cons_of_ne_nil hne
  unfold rustTrim
  have h1 : ((hd :: tl) ++ ws).dropWhile isRustWhitespace = (hd :: tl) ++ ws := by
    rw [List.cons_append]
    simp [List.dropWhile_cons, hl hd (List.mem_cons_self hd tl)]
  rw [h1, List.reverse_append, List.dropWhile_append]
  rw [dropWhile_of_all_true _ _ fun c hc => hws c (List.mem_reverse.mp hc)]
  rw [dropWhile_of_all_false _ _ fun c hc => hl c (List.mem_reverse.mp hc)]
  simp

theorem parseDigitsAux_map (ds : List Nat) (acc : Nat) (h : ∀ d ∈ ds, d < 10) :
    parseDigitsAux (ds.map digitChar) acc
      = some (ds.foldl (fun a d => a * 10 + d) acc) := by
  induction ds generalizing acc with
  | nil => rfl
  | cons d t ih =>
    have hd : d < 10 := h d (List.mem_cons_self d t)
    have h1 : (digitChar d).isDigit = true ∧ (digitChar d).toNat - 48 = d := by
      interval_cases d <;> exact ⟨by decide, by decide⟩
    rw [List.map_cons, parseDigitsAux, if_pos (by simp [h1.1]), h1.2, List.foldl_cons]
    exact ih _ fun x hx => h x (List.mem_cons_of_mem d hx)

theorem parseDigits_map (ds : List Nat) (hne : ds ≠ []) (h : ∀ d ∈ ds, d < 10) :
    parseDigits (ds.map digitChar) = some (ds.foldl (fun a d => a * 10 + d) 0) := by
  obtain ⟨d, t, rfl⟩ := List.exists_cons_of_ne_nil hne
  rw [List.map_cons, parseDigits]
  rw [← List.map_cons]
  exact parseDigitsAux_map (d :: t) 0 h

theorem foldr_mul_add_ofDigits (l : List Nat) :
    l.foldr (fun d a => a * 10 + d) 0 = Nat.ofDigits 10 l := by
  induction l with
  | nil => rfl
  | cons d t ih =>
    rw [List.foldr_cons, ih, Nat.ofDigits_cons]
    ring

theorem foldl_digits_reverse (n : Nat) :
    ((Nat.digits 10 n).reverse).foldl (fun a d => a * 10 + d) 0 = n := by
  rw [List.foldl_reverse]
  have h2 := foldr_mul_add_ofDigits (Nat.digits 10 n)
  rw [show ((fun (x : Nat) (y : Nat) => y * 10 + x))
        = (fun (d : Nat) (a : Nat) => a * 10 + d) from rfl] at *
  rw [h2, Nat.ofDigits_digits]

theorem rustParseU64_natDecimalChars (n : Nat) (h : n < 2 ^ 64) :
    rustParseU64 (natDecimalChars n) = some n := by
  have hparse : parseDigits (natDecimalChars n) = some n := by
    by_cases h0 : n = 0
    · subst h0; decide
    · unfold natDecimalChars
      rw [if_neg h0]
      rw [parseDigits_map _ (by simp [Nat.digits_ne_nil_iff_ne_zero, h0])
        (fun d hd => Nat.digits_lt_base (by norm_num) (List.mem_reverse.mp hd))]
      rw [foldl_digits_reverse]
  have hstrip : rustStripSign (natDecimalChars n) = natDecimalChars n := by
    obtain ⟨hd, tl, heq⟩ := List.exists_cons_of_ne_nil (natDecimalChars_ne_nil n)
    have hdp : hd ≠ '+' :=
      (natDecimalChars_props n hd (by rw [heq]; exact List.mem_cons_self hd tl)).2.2
    rw [heq, rustStripSign, if_neg hdp]
  unfold rustParseU64
  rw [hstrip]
  simp only [hparse]
  rw [if_pos (by norm_num at h ⊢; exact h)]

/-- C3: the `get_last_block` contract.  It returns `Ok(None)` when the
watermark object is absent (`NotFound`), when its body cannot be read as
text, or when the trimmed body fails to parse as a `u64`; it returns
`Ok(Some n)` when the body is the ASCII decimal of `n` (a `u64`) followed by
optional whitespace; and it returns `Err e` exactly when the fetch failed
with an error `e` other than `NotFound`. -/
theorem C3_get_last_block_contract :
    (get_last_block (Except.error GetObjectError.NotFound) = Except.ok none) ∧
    (get_last_block (Except.ok (Except.error ())) = Except.ok none) ∧
    (∀ body : List Char, rustParseU64 (rustTrim body) = none →
      get_last_block (Except.ok (Except.ok body)) = Except.ok none) ∧
    (∀ (n : Nat) (ws : List Char), n < 2 ^ 64 →
      (∀ c ∈ ws, isRustWhitespace c = true) →
      get_last_block (Except.ok (Except.ok (natDecimalChars n ++ ws)))
        = Except.ok (some n)) ∧
    (∀ e : GetObjectError, e ≠ GetObjectError.NotFound →
      get_last_block (Except.error e) = Except.error e) ∧
    (∀ (fetch : Except GetObjectError (Except Unit (List Char)))
       (e : GetObjectError), get_last_block fetch = Except.error e →
      fetch = Except.error e ∧ e ≠ GetObjectError.NotFound) := by
  refine ⟨rfl, rfl, ?_, ?_, ?_, ?_⟩
  · intro body hb
    simp [get_last_block, hb]
  · intro n ws hn hws
    have htrim : rustTrim (natDecimalChars n ++ ws) = natDecimalChars n :=
      rustTrim_append_ws (natDecimalChars n) ws
        (fun c hc => (natDecimalChars_props n c hc).2.1)
        (natDecimalChars_ne_nil n) hws
    simp [get_last_block, htrim, rustParseU64_natDecimalChars n hn]
  · intro e he
    cases e with
    | NotFound => exact absurd rfl he
    | AccessDenied => rfl
    | BadRequest => rfl
    | UnknownError => rfl
  · intro fetch e hfe
    match fetch with
    | Except.ok (Except.ok body) =>
      cases hp : rustParseU64 (rustTrim body) <;> simp [get_last_block, hp] at hfe
    | Except.ok (Except.error u) => simp [get_last_block] at hfe
    | Except.error GetObjectError.NotFound => simp [get_last_block] at hfe
    | Except.error GetObjectError.AccessDenied =>
      cases hfe
      exact ⟨rfl, by simp⟩
    | Except.error GetObjectError.BadRequest =>
      cases hfe
      exact ⟨rfl, by simp⟩
    | Except.error GetObjectError.UnknownError =>
      cases hfe
      exact ⟨rfl, by simp⟩

/-- C3 (witness): a watermark object containing `"777\n"` parses to
`Some 777`. -/
theorem C3_get_last_block_witness :
    get_last_block (Except.ok (Except.ok (natDecimalChars 777 ++ ['\n'])))
      = Except.ok (some 777) :=
  C3_get_last_block_contract.2.2.2.1 777 ['\n'] (by norm_num) (by decide)

/-- C7: the object path of each podping is
`year/month/day/hour/minute/second/<filename>` built from the block
timestamp with plain decimal components and `'/'` separators, where the file
name is `<block_num>_<tx_id>_<index>.json` for `V0`/`V02`/`V03`/`V10` and
`<block_num>_<tx_id>_<session_id>_<timestamp_ns>.json` for `V11`; the final
conjunct instantiates the scheme concretely (no zero padding:
`2024/6/7/8/9/10/...`). -/
theorem C7_podping_object_paths (n : Nat) (ts : Timestamp) (txId : String) (i : Nat) :
    (∀ payload, pathRender (podpingFile n ts txId i (Podping.V0 payload))
      = toString ts.year ++ "/" ++ toString ts.month ++ "/" ++ toString ts.day ++ "/"
        ++ toString ts.hour ++ "/" ++ toString ts.minute ++ "/" ++ toString ts.second
        ++ "/" ++ toString n ++ "_" ++ txId ++ "_" ++ toString i ++ ".json") ∧
    (∀ payload, pathRender (podpingFile n ts txId i (Podping.V02 payload))
      = toString ts.year ++ "/" ++ toString ts.month ++ "/" ++ toString ts.day ++ "/"
        ++ toString ts.hour ++ "/" ++ toString ts.minute ++ "/" ++ toString ts.second
        ++ "/" ++ toString n ++ "_" ++ txId ++ "_" ++ toString i ++ ".json") ∧
    (∀ payload, pathRender (podpingFile n ts txId i (Podping.V03 payload))
      = toString ts.year ++ "/" ++ toString ts.month ++ "/" ++ toString ts.day ++ "/"
        ++ toString ts.hour ++ "/" ++ toString ts.minute ++ "/" ++ toString ts.second
        ++ "/" ++ toString n ++ "_" ++ txId ++ "_" ++ toString i ++ ".json") ∧
    (∀ payload, pathRender (podpingFile n ts txId i (Podping.V10 payload))
      = toString ts.year ++ "/" ++ toString ts.month ++ "/" ++ toString ts.day ++ "/"
        ++ toString ts.hour ++ "/" ++ toString ts.minute ++ "/" ++ toString ts.second
        ++ "/" ++ toString n ++ "_" ++ txId ++ "_" ++ toString i ++ ".json") ∧
    (∀ payload sid tns,
      pathRender (podpingFile n ts txId i (Podping.V11 payload sid tns))
      = toString ts.year ++ "/" ++ toString ts.month ++ "/" ++ toString ts.day ++ "/"
        ++ toString ts.hour ++ "/" ++ toString ts.minute ++ "/" ++ toString ts.second
        ++ "/" ++ toString n ++ "_" ++ txId ++ "_" ++ sid ++ "_" ++ toString tns
        ++ ".json") ∧
    pathRender (podpingFile 777 ⟨2024, 6, 7, 8, 9, 10⟩ "deadbeef" 0
        (Podping.V11 "p" "abc" 123))
      = "2024/6/7/8/9/10/777_deadbeef_abc_123.json" := by
  refine ⟨?_, ?_, ?_, ?_, ?_, by decide⟩ <;> intro payload <;>
    simp [podpingFile, currentBlockPath, podpingFilename, pathRender, String.append_assoc]
